import Mathlib

/-!
# Verification of `data_generation.py`

Shallow embedding of the data-generation routines of the
`state_koopman_operator` repository (file `data_generation.py`), together
with theorems settling the specification claims.

Modelling conventions:

* Machine floating-point arithmetic is idealised as exact rational
  arithmetic (`ℚ`).  Tensors are nested lists of rationals; the buffer
  returned by a simulator is a `List (List (List ℚ))` indexed
  `[trajectory][time step][column]`.
* The external pseudo-random number generator (`torch`'s process-global
  generator) is modelled by a *stream* parameter
  `stream : Nat → Nat → ℚ`, where `stream s k` is the `k`-th uniform
  `[0,1)` draw produced after `torch.manual_seed s`.  The global
  generator state is an explicit `GenState` (current seed and position in
  the stream) threaded through every simulator call; `torch.manual_seed`
  discards the incoming state and resets the position to `0`, exactly as
  the source resets the global generator at the top of each simulator.
* `torch.cos` / `torch.sin` of the two-link model are external library
  functions on floats; they enter the embedding as function parameters
  `cosF sinF : ℚ → ℚ`.  No claim below depends on their values.
* The `print(...)` statement of `generate_two_link_data` is modelled by
  an explicit output channel: every simulator returns, besides its buffer
  and the final generator state, the list of records written to stdout
  (for the two-link simulator, the computed inertia pair `(I1, I2)`).
-/

/-- State of the process-global random generator: the seed it was last
seeded with and the number of uniform draws consumed since. -/
structure GenState where
  seed : Nat
  pos : Nat
deriving DecidableEq

/-- `torch.manual_seed s`: reset the global generator, discarding its
previous state. -/
def manual_seed (s : Nat) : GenState :=
  ⟨s, 0⟩

/-- The `k`-th of the next draws available in generator state `g`. -/
def drawAt (stream : Nat → Nat → ℚ) (g : GenState) (k : Nat) : ℚ :=
  stream g.seed (g.pos + k)

/-- Generator state after consuming `n` further draws. -/
def advance (g : GenState) (n : Nat) : GenState :=
  ⟨g.seed, g.pos + n⟩

/-- Python's indexing for the source expression `u[:, t-1]` with
`t ∈ range(T)`: for `t = 0` the index `-1` refers to the last column
`T - 1`; otherwise it is plainly `t - 1`. -/
def pyPrevIdx (t T : Nat) : Nat :=
  if t = 0 then T - 1 else t - 1

/-- One loop iteration of `generate_data` / `generate_data_unforced`
acting on the current `(x1, x2)` pair, given the control value `uprev`
read at Python index `t-1`:
`dx1 = dt*mu*x1 + dt*u[:, t-1]`, `dx2 = dt_lam*(x2 - x1**2)` with
`dt_lam = dt*lam`, then `x1 += dx1`, `x2 += dx2`. -/
def scalarStep (mu lam dt uprev : ℚ) (x : ℚ × ℚ) : ℚ × ℚ :=
  (x.1 + (dt * mu * x.1 + dt * uprev),
   x.2 + (dt * lam) * (x.2 - x.1 ^ 2))

/-- The `(x1, x2)` state of one trajectory after `t` iterations of the
integration loop, starting from `x0`, with control sequence `u`. -/
def scalarIter (mu lam dt : ℚ) (u : Nat → ℚ) (T : Nat) (x0 : ℚ × ℚ) :
    Nat → ℚ × ℚ
  | 0 => x0
  | t + 1 => scalarStep mu lam dt (u (pyPrevIdx t T))
      (scalarIter mu lam dt u T x0 t)

/-- Initial `x1` of trajectory `i` in `generate_data` (and the unforced
variant): `(x1range[1] - x1range[0]) * torch.rand(numICs) + x1range[0]`,
drawn at stream positions `0 .. numICs-1` right after seeding. -/
def gd_x1_0 (stream : Nat → Nat → ℚ) (x1range : ℚ × ℚ) (seed i : Nat) : ℚ :=
  (x1range.2 - x1range.1) * drawAt stream (manual_seed seed) i + x1range.1

/-- Initial `x2` of trajectory `i`: drawn at stream positions
`numICs .. 2*numICs-1`. -/
def gd_x2_0 (stream : Nat → Nat → ℚ) (x2range : ℚ × ℚ)
    (numICs seed i : Nat) : ℚ :=
  (x2range.2 - x2range.1) * drawAt stream (advance (manual_seed seed) numICs) i
    + x2range.1

/-- Control value `u[i, t]` of `generate_data`:
`torch.rand(numICs, T) - 0.5`, the draws laid out row-major at stream
positions `2*numICs ..`. -/
def gd_u (stream : Nat → Nat → ℚ) (numICs T seed i t : Nat) : ℚ :=
  drawAt stream (advance (advance (manual_seed seed) numICs) numICs)
    (i * T + t) - 1 / 2

/-- Control value `u[i, t]` of `generate_data_unforced`:
`torch.rand(numICs, T_step) * 0` — the draws are still consumed, then
multiplied by zero. -/
def gdu_u (stream : Nat → Nat → ℚ) (numICs T_step seed i t : Nat) : ℚ :=
  drawAt stream (advance (advance (manual_seed seed) numICs) numICs)
    (i * T_step + t) * 0

/-- The `(x1, x2)` pair of trajectory `i` after `t` iterations of the
loop of `generate_data`. -/
def gd_state (stream : Nat → Nat → ℚ) (x1range x2range : ℚ × ℚ)
    (numICs : Nat) (mu lam : ℚ) (T : Nat) (dt : ℚ) (seed i t : Nat) :
    ℚ × ℚ :=
  scalarIter mu lam dt (gd_u stream numICs T seed i) T
    (gd_x1_0 stream x1range seed i, gd_x2_0 stream x2range numICs seed i) t

/-- The `(x1, x2)` pair of trajectory `i` after `t` iterations of the
loop of `generate_data_unforced`. -/
def gdu_state (stream : Nat → Nat → ℚ) (x1range x2range : ℚ × ℚ)
    (numICs : Nat) (mu lam : ℚ) (T_step : Nat) (dt : ℚ) (seed i t : Nat) :
    ℚ × ℚ :=
  scalarIter mu lam dt (gdu_u stream numICs T_step seed i) T_step
    (gd_x1_0 stream x1range seed i, gd_x2_0 stream x2range numICs seed i) t

/-- `generate_data(x1range, x2range, numICs, mu, lam, T, dt, seed)`.

Returns the `[numICs, T, 3]` buffer (columns `x1`, `x2`, `u`), the final
global-generator state, and the (empty) list of stdout records.  The
incoming generator state `g0` is discarded by `torch.manual_seed(seed)`. -/
def generate_data (stream : Nat → Nat → ℚ) (g0 : GenState)
    (x1range x2range : ℚ × ℚ) (numICs : Nat) (mu lam : ℚ) (T : Nat)
    (dt : ℚ) (seed : Nat) :
    List (List (List ℚ)) × GenState × List (ℚ × ℚ) :=
  let _ := g0
  let xuk := (List.range numICs).map fun i =>
    (List.range T).map fun t =>
      let x := gd_state stream x1range x2range numICs mu lam T dt seed i t
      [x.1, x.2, gd_u stream numICs T seed i t]
  (xuk, advance (advance (advance (manual_seed seed) numICs) numICs)
    (numICs * T), [])

/-- `generate_data_unforced(x1range, x2range, numICs, mu, lam, T_step, dt,
seed)`: identical to `generate_data` except the control sequence is
`torch.rand(numICs, T_step) * 0`. -/
def generate_data_unforced (stream : Nat → Nat → ℚ) (g0 : GenState)
    (x1range x2range : ℚ × ℚ) (numICs : Nat) (mu lam : ℚ) (T_step : Nat)
    (dt : ℚ) (seed : Nat) :
    List (List (List ℚ)) × GenState × List (ℚ × ℚ) :=
  let _ := g0
  let xuk := (List.range numICs).map fun i =>
    (List.range T_step).map fun t =>
      let x := gdu_state stream x1range x2range numICs mu lam T_step dt seed i t
      [x.1, x.2, gdu_u stream numICs T_step seed i t]
  (xuk, advance (advance (advance (manual_seed seed) numICs) numICs)
    (numICs * T_step), [])

/-- Entry `B[i][t][k]` of a buffer, with default `0` out of range
(every claim below accesses entries in range). -/
def entry (B : List (List (List ℚ))) (i t k : Nat) : ℚ :=
  ((B.getD i []).getD t []).getD k 0

/-! ## Two-link planar manipulator -/

/-- The entries `(M11, M12, M22)` of the symmetric joint-space inertia
matrix `M(q)` computed in the loop body of `generate_two_link_data`
(`M21 = M12`), with `lc_i = l_i/2` and `I_i = m_i * lc_i^2`. -/
def twoLinkM (cosF : ℚ → ℚ) (m1 m2 l1 l2 q2 : ℚ) : ℚ × ℚ × ℚ :=
  let lc1 := l1 / 2
  let lc2 := l2 / 2
  let I1 := m1 * lc1 ^ 2
  let I2 := m2 * lc2 ^ 2
  let cos_q2 := cosF q2
  (I1 + I2 + m1 * lc1 ^ 2 + m2 * (l1 ^ 2 + lc2 ^ 2 + 2 * l1 * lc2 * cos_q2),
   I2 + m2 * (lc2 ^ 2 + l1 * lc2 * cos_q2),
   I2 + m2 * lc2 ^ 2)

/-- The right-hand side `(tau1 - C1 - G1, tau2 - C2 - G2)` of the
two-link dynamics at state `s = (q1, q2, dq1, dq2)`: Coriolis terms from
`sin(q2)` and the angular velocities, gravity terms from `cos(q1)` and
`cos(q1+q2)`. -/
def twoLinkRhs (cosF sinF : ℚ → ℚ) (m1 m2 l1 l2 g tau1 tau2 : ℚ)
    (s : ℚ × ℚ × ℚ × ℚ) : ℚ × ℚ :=
  let q1 := s.1
  let q2 := s.2.1
  let dq1 := s.2.2.1
  let dq2 := s.2.2.2
  let lc1 := l1 / 2
  let lc2 := l2 / 2
  let cos_q1q2 := cosF (q1 + q2)
  let h := -m2 * l1 * lc2 * sinF q2
  let C1 := h * dq2 * (2 * dq1 + dq2)
  let C2 := h * dq1 ^ 2
  let G1 := (m1 * lc1 + m2 * l1) * g * cosF q1 + m2 * lc2 * g * cos_q1q2
  let G2 := m2 * lc2 * g * cos_q1q2
  (tau1 - C1 - G1, tau2 - C2 - G2)

/-- The joint accelerations `(ddq1, ddq2)` computed in the body of the
integration loop of `generate_two_link_data`: the inertia matrix `M(q)`
is inverted analytically via the closed form with
`detM = M11*M22 - M12*M21`, and `ddq = M⁻¹ · (tau - C - G)`. -/
def twoLinkDdq (cosF sinF : ℚ → ℚ) (m1 m2 l1 l2 g tau1 tau2 : ℚ)
    (s : ℚ × ℚ × ℚ × ℚ) : ℚ × ℚ :=
  let M11 := (twoLinkM cosF m1 m2 l1 l2 s.2.1).1
  let M12 := (twoLinkM cosF m1 m2 l1 l2 s.2.1).2.1
  let M21 := M12
  let M22 := (twoLinkM cosF m1 m2 l1 l2 s.2.1).2.2
  let detM := M11 * M22 - M12 * M21
  let invM11 := M22 / detM
  let invM12 := -M12 / detM
  let invM21 := -M21 / detM
  let invM22 := M11 / detM
  let rhs1 := (twoLinkRhs cosF sinF m1 m2 l1 l2 g tau1 tau2 s).1
  let rhs2 := (twoLinkRhs cosF sinF m1 m2 l1 l2 g tau1 tau2 s).2
  (invM11 * rhs1 + invM12 * rhs2, invM21 * rhs1 + invM22 * rhs2)

/-- One Euler step of `generate_two_link_data`: the velocities are
updated first (`dq += ddq*dt`) and the positions then use the *new*
velocities (`q += dq*dt`) — semi-implicit Euler. -/
def twoLinkStep (cosF sinF : ℚ → ℚ) (m1 m2 l1 l2 g dt tau1 tau2 : ℚ)
    (s : ℚ × ℚ × ℚ × ℚ) : ℚ × ℚ × ℚ × ℚ :=
  let dd := twoLinkDdq cosF sinF m1 m2 l1 l2 g tau1 tau2 s
  let dq1n := s.2.2.1 + dd.1 * dt
  let dq2n := s.2.2.2 + dd.2 * dt
  (s.1 + dq1n * dt, s.2.1 + dq2n * dt, dq1n, dq2n)

/-- The `(q1, q2, dq1, dq2)` state of one trajectory after `t`
iterations of the two-link integration loop, with torque sequence
`tauSeq`. -/
def twoLinkIter (cosF sinF : ℚ → ℚ) (m1 m2 l1 l2 g dt : ℚ)
    (tauSeq : Nat → ℚ × ℚ) (s0 : ℚ × ℚ × ℚ × ℚ) : Nat → ℚ × ℚ × ℚ × ℚ
  | 0 => s0
  | t + 1 => twoLinkStep cosF sinF m1 m2 l1 l2 g dt (tauSeq t).1 (tauSeq t).2
      (twoLinkIter cosF sinF m1 m2 l1 l2 g dt tauSeq s0 t)

/-- Initial value of the `j`-th of the four state draws of
`generate_two_link_data` (`j = 0,1,2,3` for `q1, q2, dq1, dq2`), for
trajectory `i`: uniform in `rng`, drawn at stream positions
`j*numICs + i`. -/
def gtl_init (stream : Nat → Nat → ℚ) (rng : ℚ × ℚ)
    (numICs seed j i : Nat) : ℚ :=
  (rng.2 - rng.1) * drawAt stream (advance (manual_seed seed) (j * numICs)) i
    + rng.1

/-- torque `tau[i, t, k]` of `generate_two_link_data`:
`(torch.rand(numICs, T, 2) - 0.5) * 2 * tau_max`, the draws laid out
row-major at stream positions `4*numICs ..`. -/
def gtl_tau (stream : Nat → Nat → ℚ) (tau_max : ℚ)
    (numICs T seed i t k : Nat) : ℚ :=
  (drawAt stream (advance (manual_seed seed) (4 * numICs))
    (i * (T * 2) + t * 2 + k) - 1 / 2) * 2 * tau_max

/-- The `(q1, q2, dq1, dq2)` state of trajectory `i` after `t`
iterations of the loop of `generate_two_link_data`. -/
def gtl_state (stream : Nat → Nat → ℚ) (cosF sinF : ℚ → ℚ)
    (q1_range q2_range dq1_range dq2_range : ℚ × ℚ) (numICs T : Nat)
    (dt : ℚ) (seed : Nat) (tau_max m1 m2 l1 l2 g : ℚ) (i t : Nat) :
    ℚ × ℚ × ℚ × ℚ :=
  twoLinkIter cosF sinF m1 m2 l1 l2 g dt
    (fun t' => (gtl_tau stream tau_max numICs T seed i t' 0,
                gtl_tau stream tau_max numICs T seed i t' 1))
    (gtl_init stream q1_range numICs seed 0 i,
     gtl_init stream q2_range numICs seed 1 i,
     gtl_init stream dq1_range numICs seed 2 i,
     gtl_init stream dq2_range numICs seed 3 i) t

/-- `generate_two_link_data(q1_range, q2_range, dq1_range, dq2_range,
numICs, T, dt, seed, tau_max, m1, m2, l1, l2, g)`.

Returns the `[numICs, T, 6]` buffer (columns `q1, q2, dq1, dq2, tau1,
tau2`), the final generator state, and the list of stdout records: the
source's `print(f"Computed Inertia: I1 = ..., I2 = ...")` is modelled as
emitting the pair `(I1, I2)`. -/
def generate_two_link_data (stream : Nat → Nat → ℚ) (g0 : GenState)
    (cosF sinF : ℚ → ℚ) (q1_range q2_range dq1_range dq2_range : ℚ × ℚ)
    (numICs T : Nat) (dt : ℚ) (seed : Nat)
    (tau_max m1 m2 l1 l2 g : ℚ) :
    List (List (List ℚ)) × GenState × List (ℚ × ℚ) :=
  let _ := g0
  let lc1 := l1 / 2
  let lc2 := l2 / 2
  let I1 := m1 * lc1 ^ 2
  let I2 := m2 * lc2 ^ 2
  let printed := [(I1, I2)]
  let data := (List.range numICs).map fun i =>
    (List.range T).map fun t =>
      let s := gtl_state stream cosF sinF q1_range q2_range dq1_range
        dq2_range numICs T dt seed tau_max m1 m2 l1 l2 g i t
      [s.1, s.2.1, s.2.2.1, s.2.2.2,
       gtl_tau stream tau_max numICs T seed i t 0,
       gtl_tau stream tau_max numICs T seed i t 1]
  (data, advance (manual_seed seed) (4 * numICs + numICs * (T * 2)), printed)

/-! ## Dataset splitters -/

/-- Python's built-in `round`: nearest integer, ties to even. -/
def pyRound (q : ℚ) : ℤ :=
  let f : ℤ := ⌊q⌋
  if q - f < 1 / 2 then f
  else if 1 / 2 < q - f then f + 1
  else if 2 ∣ f then f else f + 1

/-- `DataGenerator(x1range, x2range, numICs, mu, lam, T, dt)`: three
calls of `generate_data` with seeds 1, 2, 3 and trajectory counts
`round(0.1*numICs)`, `round(0.2*numICs)`, `round(0.7*numICs)` (test,
validation, train in call order), returning
`(train_tensor, test_tensor, val_tensor)` plus the final generator
state. -/
def DataGenerator (stream : Nat → Nat → ℚ) (g0 : GenState)
    (x1range x2range : ℚ × ℚ) (numICs : Nat) (mu lam : ℚ) (T : Nat)
    (dt : ℚ) :
    (List (List (List ℚ)) × List (List (List ℚ)) × List (List (List ℚ)))
      × GenState :=
  let r1 := generate_data stream g0 x1range x2range
    (pyRound (1 / 10 * numICs)).toNat mu lam T dt 1
  let r2 := generate_data stream r1.2.1 x1range x2range
    (pyRound (2 / 10 * numICs)).toNat mu lam T dt 2
  let r3 := generate_data stream r2.2.1 x1range x2range
    (pyRound (7 / 10 * numICs)).toNat mu lam T dt 3
  ((r3.1, r1.1, r2.1), r3.2.1)

/-! ## Access lemmas -/

theorem range_map_getD {α : Type} (f : Nat → α) {n i : Nat} (h : i < n)
    (d : α) : ((List.range n).map f).getD i d = f i := by
  rw [List.getD_eq_getElem?_getD]
  rw [List.getElem?_map, List.getElem?_range h]
  rfl

theorem gd_row (stream : Nat → Nat → ℚ) (g0 : GenState)
    (x1range x2range : ℚ × ℚ) (numICs : Nat) (mu lam : ℚ) (T : Nat)
    (dt : ℚ) (seed : Nat) {i t : Nat} (hi : i < numICs) (ht : t < T) :
    (((generate_data stream g0 x1range x2range numICs mu lam T dt
        seed).1.getD i []).getD t []) =
      [(gd_state stream x1range x2range numICs mu lam T dt seed i t).1,
       (gd_state stream x1range x2range numICs mu lam T dt seed i t).2,
       gd_u stream numICs T seed i t] := by
  unfold generate_data
  rw [range_map_getD _ hi, range_map_getD _ ht]

theorem gd_entry (stream : Nat → Nat → ℚ) (g0 : GenState)
    (x1range x2range : ℚ × ℚ) (numICs : Nat) (mu lam : ℚ) (T : Nat)
    (dt : ℚ) (seed : Nat) {i t : Nat} (hi : i < numICs) (ht : t < T) :
    entry (generate_data stream g0 x1range x2range numICs mu lam T dt
        seed).1 i t 0 =
      (gd_state stream x1range x2range numICs mu lam T dt seed i t).1 ∧
    entry (generate_data stream g0 x1range x2range numICs mu lam T dt
        seed).1 i t 1 =
      (gd_state stream x1range x2range numICs mu lam T dt seed i t).2 ∧
    entry (generate_data stream g0 x1range x2range numICs mu lam T dt
        seed).1 i t 2 = gd_u stream numICs T seed i t := by
  unfold entry
  rw [gd_row stream g0 x1range x2range numICs mu lam T dt seed hi ht]
  exact ⟨rfl, rfl, rfl⟩

theorem gdu_row (stream : Nat → Nat → ℚ) (g0 : GenState)
    (x1range x2range : ℚ × ℚ) (numICs : Nat) (mu lam : ℚ) (T_step : Nat)
    (dt : ℚ) (seed : Nat) {i t : Nat} (hi : i < numICs) (ht : t < T_step) :
    (((generate_data_unforced stream g0 x1range x2range numICs mu lam
        T_step dt seed).1.getD i []).getD t []) =
      [(gdu_state stream x1range x2range numICs mu lam T_step dt seed i t).1,
       (gdu_state stream x1range x2range numICs mu lam T_step dt seed i t).2,
       gdu_u stream numICs T_step seed i t] := by
  unfold generate_data_unforced
  rw [range_map_getD _ hi, range_map_getD _ ht]

theorem gtl_row (stream : Nat → Nat → ℚ) (g0 : GenState)
    (cosF sinF : ℚ → ℚ) (q1_range q2_range dq1_range dq2_range : ℚ × ℚ)
    (numICs T : Nat) (dt : ℚ) (seed : Nat) (tau_max m1 m2 l1 l2 g : ℚ)
    {i t : Nat} (hi : i < numICs) (ht : t < T) :
    (((generate_two_link_data stream g0 cosF sinF q1_range q2_range
        dq1_range dq2_range numICs T dt seed tau_max m1 m2 l1 l2
        g).1.getD i []).getD t []) =
      [(gtl_state stream cosF sinF q1_range q2_range dq1_range dq2_range
          numICs T dt seed tau_max m1 m2 l1 l2 g i t).1,
       (gtl_state stream cosF sinF q1_range q2_range dq1_range dq2_range
          numICs T dt seed tau_max m1 m2 l1 l2 g i t).2.1,
       (gtl_state stream cosF sinF q1_range q2_range dq1_range dq2_range
          numICs T dt seed tau_max m1 m2 l1 l2 g i t).2.2.1,
       (gtl_state stream cosF sinF q1_range q2_range dq1_range dq2_range
          numICs T dt seed tau_max m1 m2 l1 l2 g i t).2.2.2,
       gtl_tau stream tau_max numICs T seed i t 0,
       gtl_tau stream tau_max numICs T seed i t 1] := by
  unfold generate_two_link_data
  rw [range_map_getD _ hi, range_map_getD _ ht]

/-! ## Helper lemmas -/

theorem uniform_mem_range {lo hi r : ℚ} (hle : lo ≤ hi) (h0 : 0 ≤ r)
    (h1 : r < 1) : lo ≤ (hi - lo) * r + lo ∧ (hi - lo) * r + lo ≤ hi := by
  constructor <;> nlinarith

theorem inv2x2_solves (A B C r1 r2 : ℚ) (hdet : A * C - B * B ≠ 0) :
    A * (C / (A * C - B * B) * r1 + -B / (A * C - B * B) * r2) +
      B * (-B / (A * C - B * B) * r1 + A / (A * C - B * B) * r2) = r1 ∧
    B * (C / (A * C - B * B) * r1 + -B / (A * C - B * B) * r2) +
      C * (-B / (A * C - B * B) * r1 + A / (A * C - B * B) * r2) = r2 := by
  constructor <;> (field_simp; ring)

theorem generate_data_shape (stream : Nat → Nat → ℚ) (g0 : GenState)
    (x1range x2range : ℚ × ℚ) (numICs : Nat) (mu lam : ℚ) (T : Nat)
    (dt : ℚ) (seed : Nat) :
    (generate_data stream g0 x1range x2range numICs mu lam T dt
        seed).1.length = numICs ∧
    ∀ row ∈ (generate_data stream g0 x1range x2range numICs mu lam T dt
        seed).1, row.length = T ∧ ∀ cell ∈ row, cell.length = 3 := by
  refine ⟨by simp [generate_data], ?_⟩
  intro row hrow
  simp only [generate_data, List.mem_map, List.mem_range] at hrow
  obtain ⟨i, _, rfl⟩ := hrow
  refine ⟨by simp, ?_⟩
  intro cell hcell
  simp only [List.mem_map, List.mem_range] at hcell
  obtain ⟨t, _, rfl⟩ := hcell
  rfl

/-! ## Claims -/

/-- **C4.** For every input ranges, trajectory count, `mu`, `lam`,
horizon, step size and seed, the third column (index 2) of the buffer
returned by `generate_data_unforced` is zero at every trajectory and
every time step: the control sequence is `torch.rand(numICs, T_step) * 0`. -/
theorem c4_unforced_zero_control (stream : Nat → Nat → ℚ) (g0 : GenState)
    (x1range x2range : ℚ × ℚ) (numICs : Nat) (mu lam : ℚ) (T_step : Nat)
    (dt : ℚ) (seed i t : Nat) (hi : i < numICs) (ht : t < T_step) :
    entry (generate_data_unforced stream g0 x1range x2range numICs mu lam
      T_step dt seed).1 i t 2 = 0 := by
  unfold entry
  rw [gdu_row stream g0 x1range x2range numICs mu lam T_step dt seed hi ht]
  show gdu_u stream numICs T_step seed i t = 0
  exact mul_zero _

theorem c4_unforced_zero_control_witness :
    (0 : Nat) < 1 ∧ (0 : Nat) < 2 ∧
    entry (generate_data_unforced (fun _ _ => (1 : ℚ)/3) ⟨5, 7⟩ (0, 1)
      (0, 1) 1 2 3 2 (1/10) 4).1 0 0 2 = 0 :=
  ⟨by decide, by decide,
   c4_unforced_zero_control (fun _ _ => (1 : ℚ)/3) ⟨5, 7⟩ (0, 1) (0, 1)
     1 2 3 2 (1/10) 4 0 0 (by decide) (by decide)⟩

/-- **C5.** Each of `generate_data`, `generate_data_unforced` and
`generate_two_link_data` re-seeds the global generator at the start, so
its whole result (buffer, final generator state, stdout records) does
not depend on the incoming generator state: two calls with identical
parameters and identical seed — in particular a second call starting
from whatever state the first call left behind — return identical
buffers. -/
theorem c5_seed_determinism (stream : Nat → Nat → ℚ) (g g' : GenState)
    (x1range x2range q1r q2r dq1r dq2r : ℚ × ℚ) (numICs : Nat)
    (mu lam : ℚ) (T : Nat) (dt : ℚ) (seed : Nat) (cosF sinF : ℚ → ℚ)
    (tau_max m1 m2 l1 l2 grav : ℚ) :
    generate_data stream g x1range x2range numICs mu lam T dt seed =
      generate_data stream g' x1range x2range numICs mu lam T dt seed ∧
    generate_data_unforced stream g x1range x2range numICs mu lam T dt
        seed =
      generate_data_unforced stream g' x1range x2range numICs mu lam T dt
        seed ∧
    generate_two_link_data stream g cosF sinF q1r q2r dq1r dq2r numICs T
        dt seed tau_max m1 m2 l1 l2 grav =
      generate_two_link_data stream g' cosF sinF q1r q2r dq1r dq2r numICs
        T dt seed tau_max m1 m2 l1 l2 grav :=
  ⟨rfl, rfl, rfl⟩

/-- **C9.** No input validation: for `numICs = 0` or `T = 0` (and
arbitrary other arguments, including reversed range bounds) the total
function `generate_data` still returns a buffer of shape
`[numICs, T, 3]`, which is then degenerate (empty, or made of empty
trajectories). -/
theorem c9_degenerate_inputs (stream : Nat → Nat → ℚ) (g0 : GenState)
    (x1range x2range : ℚ × ℚ) (numICs : Nat) (mu lam : ℚ) (T : Nat)
    (dt : ℚ) (seed : Nat) (h : numICs = 0 ∨ T = 0) :
    (generate_data stream g0 x1range x2range numICs mu lam T dt
        seed).1.length = numICs ∧
    (∀ row ∈ (generate_data stream g0 x1range x2range numICs mu lam T dt
        seed).1, row.length = T ∧ ∀ cell ∈ row, cell.length = 3) ∧
    ((generate_data stream g0 x1range x2range numICs mu lam T dt
        seed).1 = [] ∨
      ∀ row ∈ (generate_data stream g0 x1range x2range numICs mu lam T dt
        seed).1, row = []) := by
  obtain ⟨hlen, hrow⟩ := generate_data_shape stream g0 x1range x2range
    numICs mu lam T dt seed
  refine ⟨hlen, hrow, ?_⟩
  rcases h with h | h
  · exact Or.inl (List.length_eq_zero.mp (h ▸ hlen))
  · exact Or.inr fun row hr =>
      List.length_eq_zero.mp (h ▸ (hrow row hr).1)

theorem c9_degenerate_inputs_witness :
    ((0 : Nat) = 0 ∨ (3 : Nat) = 0) ∧
    (generate_data (fun _ _ => (1 : ℚ)/3) ⟨1, 2⟩ (1, 0) (1, 0) 0 2 3 3
        (1/10) 9).1.length = 0 ∧
    (∀ row ∈ (generate_data (fun _ _ => (1 : ℚ)/3) ⟨1, 2⟩ (1, 0) (1, 0) 0
        2 3 3 (1/10) 9).1, row.length = 3 ∧ ∀ cell ∈ row, cell.length = 3) ∧
    ((generate_data (fun _ _ => (1 : ℚ)/3) ⟨1, 2⟩ (1, 0) (1, 0) 0 2 3 3
        (1/10) 9).1 = [] ∨
      ∀ row ∈ (generate_data (fun _ _ => (1 : ℚ)/3) ⟨1, 2⟩ (1, 0) (1, 0) 0
        2 3 3 (1/10) 9).1, row = []) :=
  ⟨Or.inl rfl,
   c9_degenerate_inputs (fun _ _ => (1 : ℚ)/3) ⟨1, 2⟩ (1, 0) (1, 0) 0 2 3
     3 (1/10) 9 (Or.inl rfl)⟩

/-- **C10.** With identical ranges, trajectory count, `mu`, `lam`,
horizon, step size and seed, `generate_data` and
`generate_data_unforced` record identical `x1` and `x2` values at time
step 0: both seed the generator the same way and draw the initial `x1`
and `x2` vectors before any control-related draw. -/
theorem c10_shared_initial_draws (stream : Nat → Nat → ℚ)
    (g g' : GenState) (x1range x2range : ℚ × ℚ) (numICs : Nat)
    (mu lam : ℚ) (T : Nat) (dt : ℚ) (seed i : Nat) (hi : i < numICs)
    (hT : 0 < T) :
    entry (generate_data stream g x1range x2range numICs mu lam T dt
        seed).1 i 0 0 =
      entry (generate_data_unforced stream g' x1range x2range numICs mu
        lam T dt seed).1 i 0 0 ∧
    entry (generate_data stream g x1range x2range numICs mu lam T dt
        seed).1 i 0 1 =
      entry (generate_data_unforced stream g' x1range x2range numICs mu
        lam T dt seed).1 i 0 1 := by
  unfold entry
  rw [gd_row stream g x1range x2range numICs mu lam T dt seed hi hT,
    gdu_row stream g' x1range x2range numICs mu lam T dt seed hi hT]
  exact ⟨rfl, rfl⟩

theorem c10_shared_initial_draws_witness :
    (0 : Nat) < 2 ∧ (0 : Nat) < 3 ∧
    (entry (generate_data (fun _ _ => (1 : ℚ)/3) ⟨1, 2⟩ (0, 1) (2, 5) 2 1
        1 3 (1/10) 8).1 0 0 0 =
      entry (generate_data_unforced (fun _ _ => (1 : ℚ)/3) ⟨9, 4⟩ (0, 1)
        (2, 5) 2 1 1 3 (1/10) 8).1 0 0 0 ∧
     entry (generate_data (fun _ _ => (1 : ℚ)/3) ⟨1, 2⟩ (0, 1) (2, 5) 2 1
        1 3 (1/10) 8).1 0 0 1 =
      entry (generate_data_unforced (fun _ _ => (1 : ℚ)/3) ⟨9, 4⟩ (0, 1)
        (2, 5) 2 1 1 3 (1/10) 8).1 0 0 1) :=
  ⟨by decide, by decide,
   c10_shared_initial_draws (fun _ _ => (1 : ℚ)/3) ⟨1, 2⟩ ⟨9, 4⟩ (0, 1)
     (2, 5) 2 1 1 3 (1/10) 8 0 (by decide) (by decide)⟩

/-- **C2.** In `generate_data`, between consecutive recorded steps the
buffer satisfies the source's update law: the `x1` increment applied
after recording step `t` is `dt*mu*x1 + dt*u[t-1]` where `u[t-1]` is the
control column of the *previous* step, the Python index `-1` of the
first iteration wrapping to the last column `T-1` (`pyPrevIdx`), and the
`x2` increment is `dt*lam*(x2 - x1^2)`. -/
theorem c2_scalar_increments (stream : Nat → Nat → ℚ) (g0 : GenState)
    (x1range x2range : ℚ × ℚ) (numICs : Nat) (mu lam : ℚ) (T : Nat)
    (dt : ℚ) (seed i t : Nat) (hi : i < numICs) (ht : t + 1 < T) :
    entry (generate_data stream g0 x1range x2range numICs mu lam T dt
        seed).1 i (t + 1) 0 =
      entry (generate_data stream g0 x1range x2range numICs mu lam T dt
        seed).1 i t 0 +
      (dt * mu * entry (generate_data stream g0 x1range x2range numICs mu
        lam T dt seed).1 i t 0 +
       dt * entry (generate_data stream g0 x1range x2range numICs mu lam
        T dt seed).1 i (pyPrevIdx t T) 2) ∧
    entry (generate_data stream g0 x1range x2range numICs mu lam T dt
        seed).1 i (t + 1) 1 =
      entry (generate_data stream g0 x1range x2range numICs mu lam T dt
        seed).1 i t 1 +
      (dt * lam) *
        (entry (generate_data stream g0 x1range x2range numICs mu lam T
          dt seed).1 i t 1 -
         entry (generate_data stream g0 x1range x2range numICs mu lam T
          dt seed).1 i t 0 ^ 2) ∧
    pyPrevIdx 0 T = T - 1 := by
  have ht' : t < T := Nat.lt_of_succ_lt ht
  have hp : pyPrevIdx t T < T := by
    unfold pyPrevIdx
    split <;> omega
  unfold entry
  rw [gd_row stream g0 x1range x2range numICs mu lam T dt seed hi ht,
    gd_row stream g0 x1range x2range numICs mu lam T dt seed hi ht',
    gd_row stream g0 x1range x2range numICs mu lam T dt seed hi hp]
  exact ⟨rfl, rfl, rfl⟩

theorem c2_scalar_increments_witness :
    (0 : Nat) < 1 ∧ (0 : Nat) + 1 < 3 ∧
    (entry (generate_data (fun _ _ => (1 : ℚ)/3) ⟨0, 0⟩ (0, 1) (0, 1) 1 2
        5 3 (1/10) 6).1 0 (0 + 1) 0 =
      entry (generate_data (fun _ _ => (1 : ℚ)/3) ⟨0, 0⟩ (0, 1) (0, 1) 1
        2 5 3 (1/10) 6).1 0 0 0 +
      ((1/10) * 2 * entry (generate_data (fun _ _ => (1 : ℚ)/3) ⟨0, 0⟩
        (0, 1) (0, 1) 1 2 5 3 (1/10) 6).1 0 0 0 +
       (1/10) * entry (generate_data (fun _ _ => (1 : ℚ)/3) ⟨0, 0⟩ (0, 1)
        (0, 1) 1 2 5 3 (1/10) 6).1 0 (pyPrevIdx 0 3) 2) ∧
     entry (generate_data (fun _ _ => (1 : ℚ)/3) ⟨0, 0⟩ (0, 1) (0, 1) 1 2
        5 3 (1/10) 6).1 0 (0 + 1) 1 =
      entry (generate_data (fun _ _ => (1 : ℚ)/3) ⟨0, 0⟩ (0, 1) (0, 1) 1
        2 5 3 (1/10) 6).1 0 0 1 +
      ((1/10) * 5) *
        (entry (generate_data (fun _ _ => (1 : ℚ)/3) ⟨0, 0⟩ (0, 1) (0, 1)
          1 2 5 3 (1/10) 6).1 0 0 1 -
         entry (generate_data (fun _ _ => (1 : ℚ)/3) ⟨0, 0⟩ (0, 1) (0, 1)
          1 2 5 3 (1/10) 6).1 0 0 0 ^ 2) ∧
     pyPrevIdx 0 3 = 3 - 1) :=
  ⟨by decide, by decide,
   c2_scalar_increments (fun _ _ => (1 : ℚ)/3) ⟨0, 0⟩ (0, 1) (0, 1) 1 2 5
     3 (1/10) 6 0 0 (by decide) (by decide)⟩

/-- **C6.** `DataGenerator` makes three `generate_data` calls with seeds
1, 2, 3 and trajectory counts `round(0.1*numICs)`, `round(0.2*numICs)`,
`round(0.7*numICs)` (test, validation, train in call order) and returns
the triple `(train, test, val)`; in particular for `numICs = 100` the
returned batches have 70, 10, 20 trajectories in return order. -/
theorem c6_splitter_fractions (stream : Nat → Nat → ℚ) (g0 : GenState)
    (x1range x2range : ℚ × ℚ) (numICs : Nat) (mu lam : ℚ) (T : Nat)
    (dt : ℚ) :
    (DataGenerator stream g0 x1range x2range numICs mu lam T dt).1.1 =
      (generate_data stream g0 x1range x2range
        (pyRound (7 / 10 * numICs)).toNat mu lam T dt 3).1 ∧
    (DataGenerator stream g0 x1range x2range numICs mu lam T dt).1.2.1 =
      (generate_data stream g0 x1range x2range
        (pyRound (1 / 10 * numICs)).toNat mu lam T dt 1).1 ∧
    (DataGenerator stream g0 x1range x2range numICs mu lam T dt).1.2.2 =
      (generate_data stream g0 x1range x2range
        (pyRound (2 / 10 * numICs)).toNat mu lam T dt 2).1 ∧
    (DataGenerator stream g0 x1range x2range numICs mu lam T
        dt).1.1.length = (pyRound (7 / 10 * numICs)).toNat ∧
    (DataGenerator stream g0 x1range x2range numICs mu lam T
        dt).1.2.1.length = (pyRound (1 / 10 * numICs)).toNat ∧
    (DataGenerator stream g0 x1range x2range numICs mu lam T
        dt).1.2.2.length = (pyRound (2 / 10 * numICs)).toNat ∧
    (numICs = 100 →
      (DataGenerator stream g0 x1range x2range numICs mu lam T
        dt).1.1.length = 70 ∧
      (DataGenerator stream g0 x1range x2range numICs mu lam T
        dt).1.2.1.length = 10 ∧
      (DataGenerator stream g0 x1range x2range numICs mu lam T
        dt).1.2.2.length = 20) := by
  refine ⟨rfl, rfl, rfl, by simp [DataGenerator, generate_data],
    by simp [DataGenerator, generate_data],
    by simp [DataGenerator, generate_data], ?_⟩
  rintro rfl
  refine ⟨?_, ?_, ?_⟩ <;>
    · simp only [DataGenerator, generate_data, List.length_map,
        List.length_range]
      norm_num [pyRound]
      rfl

theorem c6_splitter_fractions_witness :
    (100 : Nat) = 100 ∧
    (DataGenerator (fun _ _ => (1 : ℚ)/2) ⟨0, 0⟩ (0, 1) (0, 1) 100 1 1 2
      (1/10)).1.1.length = 70 ∧
    (DataGenerator (fun _ _ => (1 : ℚ)/2) ⟨0, 0⟩ (0, 1) (0, 1) 100 1 1 2
      (1/10)).1.2.1.length = 10 ∧
    (DataGenerator (fun _ _ => (1 : ℚ)/2) ⟨0, 0⟩ (0, 1) (0, 1) 100 1 1 2
      (1/10)).1.2.2.length = 20 :=
  ⟨rfl,
   (c6_splitter_fractions (fun _ _ => (1 : ℚ)/2) ⟨0, 0⟩ (0, 1) (0, 1) 100
     1 1 2 (1/10)).2.2.2.2.2.2 rfl⟩

/-- **C8.** When every range is a pair `(min, max)` with `min ≤ max` and
the generator's draws lie in `[0,1)`, the state values recorded at time
step 0 lie within the corresponding `[min, max]` ranges, for every
trajectory: each initial value is `min + r*(max - min)` for a uniform
draw `r ∈ [0,1)`.  First conjunct: `generate_data` (columns `x1`, `x2`);
second conjunct: `generate_two_link_data` (columns `q1, q2, dq1, dq2`). -/
theorem c8_initial_range (stream : Nat → Nat → ℚ)
    (hstream : ∀ s k, 0 ≤ stream s k ∧ stream s k < 1) :
    (∀ (g0 : GenState) (x1range x2range : ℚ × ℚ) (numICs : Nat)
        (mu lam : ℚ) (T : Nat) (dt : ℚ) (seed i : Nat), i < numICs →
        0 < T → x1range.1 ≤ x1range.2 → x2range.1 ≤ x2range.2 →
        (x1range.1 ≤ entry (generate_data stream g0 x1range x2range
            numICs mu lam T dt seed).1 i 0 0 ∧
          entry (generate_data stream g0 x1range x2range numICs mu lam T
            dt seed).1 i 0 0 ≤ x1range.2) ∧
        (x2range.1 ≤ entry (generate_data stream g0 x1range x2range
            numICs mu lam T dt seed).1 i 0 1 ∧
          entry (generate_data stream g0 x1range x2range numICs mu lam T
            dt seed).1 i 0 1 ≤ x2range.2)) ∧
    (∀ (g0 : GenState) (cosF sinF : ℚ → ℚ) (q1r q2r dq1r dq2r : ℚ × ℚ)
        (numICs T : Nat) (dt : ℚ) (seed : Nat)
        (tau_max m1 m2 l1 l2 grav : ℚ) (i : Nat), i < numICs → 0 < T →
        q1r.1 ≤ q1r.2 → q2r.1 ≤ q2r.2 → dq1r.1 ≤ dq1r.2 →
        dq2r.1 ≤ dq2r.2 →
        (q1r.1 ≤ entry (generate_two_link_data stream g0 cosF sinF q1r
            q2r dq1r dq2r numICs T dt seed tau_max m1 m2 l1 l2
            grav).1 i 0 0 ∧
          entry (generate_two_link_data stream g0 cosF sinF q1r q2r dq1r
            dq2r numICs T dt seed tau_max m1 m2 l1 l2 grav).1 i 0 0 ≤
            q1r.2) ∧
        (q2r.1 ≤ entry (generate_two_link_data stream g0 cosF sinF q1r
            q2r dq1r dq2r numICs T dt seed tau_max m1 m2 l1 l2
            grav).1 i 0 1 ∧
          entry (generate_two_link_data stream g0 cosF sinF q1r q2r dq1r
            dq2r numICs T dt seed tau_max m1 m2 l1 l2 grav).1 i 0 1 ≤
            q2r.2) ∧
        (dq1r.1 ≤ entry (generate_two_link_data stream g0 cosF sinF q1r
            q2r dq1r dq2r numICs T dt seed tau_max m1 m2 l1 l2
            grav).1 i 0 2 ∧
          entry (generate_two_link_data stream g0 cosF sinF q1r q2r dq1r
            dq2r numICs T dt seed tau_max m1 m2 l1 l2 grav).1 i 0 2 ≤
            dq1r.2) ∧
        (dq2r.1 ≤ entry (generate_two_link_data stream g0 cosF sinF q1r
            q2r dq1r dq2r numICs T dt seed tau_max m1 m2 l1 l2
            grav).1 i 0 3 ∧
          entry (generate_two_link_data stream g0 cosF sinF q1r q2r dq1r
            dq2r numICs T dt seed tau_max m1 m2 l1 l2 grav).1 i 0 3 ≤
            dq2r.2)) := by
  constructor
  · intro g0 x1range x2range numICs mu lam T dt seed i hi hT h1 h2
    unfold entry
    rw [gd_row stream g0 x1range x2range numICs mu lam T dt seed hi hT]
    exact ⟨uniform_mem_range h1 (hstream seed (0 + i)).1
        (hstream seed (0 + i)).2,
      uniform_mem_range h2 (hstream seed (0 + numICs + i)).1
        (hstream seed (0 + numICs + i)).2⟩
  · intro g0 cosF sinF q1r q2r dq1r dq2r numICs T dt seed tau_max m1 m2
      l1 l2 grav i hi hT h1 h2 h3 h4
    unfold entry
    rw [gtl_row stream g0 cosF sinF q1r q2r dq1r dq2r numICs T dt seed
      tau_max m1 m2 l1 l2 grav hi hT]
    exact ⟨uniform_mem_range h1 (hstream seed (0 + 0 * numICs + i)).1
        (hstream seed (0 + 0 * numICs + i)).2,
      uniform_mem_range h2 (hstream seed (0 + 1 * numICs + i)).1
        (hstream seed (0 + 1 * numICs + i)).2,
      uniform_mem_range h3 (hstream seed (0 + 2 * numICs + i)).1
        (hstream seed (0 + 2 * numICs + i)).2,
      uniform_mem_range h4 (hstream seed (0 + 3 * numICs + i)).1
        (hstream seed (0 + 3 * numICs + i)).2⟩

theorem c8_initial_range_witness :
    (∀ s k : Nat, 0 ≤ (fun _ _ => (1 : ℚ)/2) s k ∧
      (fun _ _ => (1 : ℚ)/2) s k < 1) ∧
    (((0 : ℚ) ≤ entry (generate_data (fun _ _ => (1 : ℚ)/2) ⟨0, 0⟩ (0, 1)
        (0, 1) 1 1 1 1 (1/10) 0).1 0 0 0 ∧
      entry (generate_data (fun _ _ => (1 : ℚ)/2) ⟨0, 0⟩ (0, 1) (0, 1) 1
        1 1 1 (1/10) 0).1 0 0 0 ≤ 1) ∧
     ((0 : ℚ) ≤ entry (generate_data (fun _ _ => (1 : ℚ)/2) ⟨0, 0⟩ (0, 1)
        (0, 1) 1 1 1 1 (1/10) 0).1 0 0 1 ∧
      entry (generate_data (fun _ _ => (1 : ℚ)/2) ⟨0, 0⟩ (0, 1) (0, 1) 1
        1 1 1 (1/10) 0).1 0 0 1 ≤ 1)) ∧
    (((0 : ℚ) ≤ entry (generate_two_link_data (fun _ _ => (1 : ℚ)/2)
        ⟨0, 0⟩ (fun _ => 1) (fun _ => 0) (0, 1) (0, 1) (0, 1) (0, 1) 1 1
        (1/10) 0 1 1 1 1 1 (981/100)).1 0 0 0 ∧
      entry (generate_two_link_data (fun _ _ => (1 : ℚ)/2) ⟨0, 0⟩
        (fun _ => 1) (fun _ => 0) (0, 1) (0, 1) (0, 1) (0, 1) 1 1 (1/10)
        0 1 1 1 1 1 (981/100)).1 0 0 0 ≤ 1) ∧
     ((0 : ℚ) ≤ entry (generate_two_link_data (fun _ _ => (1 : ℚ)/2)
        ⟨0, 0⟩ (fun _ => 1) (fun _ => 0) (0, 1) (0, 1) (0, 1) (0, 1) 1 1
        (1/10) 0 1 1 1 1 1 (981/100)).1 0 0 1 ∧
      entry (generate_two_link_data (fun _ _ => (1 : ℚ)/2) ⟨0, 0⟩
        (fun _ => 1) (fun _ => 0) (0, 1) (0, 1) (0, 1) (0, 1) 1 1 (1/10)
        0 1 1 1 1 1 (981/100)).1 0 0 1 ≤ 1) ∧
     ((0 : ℚ) ≤ entry (generate_two_link_data (fun _ _ => (1 : ℚ)/2)
        ⟨0, 0⟩ (fun _ => 1) (fun _ => 0) (0, 1) (0, 1) (0, 1) (0, 1) 1 1
        (1/10) 0 1 1 1 1 1 (981/100)).1 0 0 2 ∧
      entry (generate_two_link_data (fun _ _ => (1 : ℚ)/2) ⟨0, 0⟩
        (fun _ => 1) (fun _ => 0) (0, 1) (0, 1) (0, 1) (0, 1) 1 1 (1/10)
        0 1 1 1 1 1 (981/100)).1 0 0 2 ≤ 1) ∧
     ((0 : ℚ) ≤ entry (generate_two_link_data (fun _ _ => (1 : ℚ)/2)
        ⟨0, 0⟩ (fun _ => 1) (fun _ => 0) (0, 1) (0, 1) (0, 1) (0, 1) 1 1
        (1/10) 0 1 1 1 1 1 (981/100)).1 0 0 3 ∧
      entry (generate_two_link_data (fun _ _ => (1 : ℚ)/2) ⟨0, 0⟩
        (fun _ => 1) (fun _ => 0) (0, 1) (0, 1) (0, 1) (0, 1) 1 1 (1/10)
        0 1 1 1 1 1 (981/100)).1 0 0 3 ≤ 1)) :=
  ⟨fun _ _ => ⟨by norm_num, by norm_num⟩,
   (c8_initial_range (fun _ _ => (1 : ℚ)/2)
      (fun _ _ => ⟨by norm_num, by norm_num⟩)).1 ⟨0, 0⟩ (0, 1) (0, 1) 1 1
     1 1 (1/10) 0 0 (by decide) (by decide) (by norm_num) (by norm_num),
   (c8_initial_range (fun _ _ => (1 : ℚ)/2)
      (fun _ _ => ⟨by norm_num, by norm_num⟩)).2 ⟨0, 0⟩ (fun _ => 1)
     (fun _ => 0) (0, 1) (0, 1) (0, 1) (0, 1) 1 1 (1/10) 0 1 1 1 1 1
     (981/100) 0 (by decide) (by decide) (by norm_num) (by norm_num)
     (by norm_num) (by norm_num)⟩

/-- **C7.** In `generate_two_link_data` each time step updates velocity
before position, the position update using the newly updated velocity
(semi-implicit Euler): between consecutive recorded steps of the buffer,
`dq_new = dq_old + ddq*dt` and `q_new = q_old + dq_new*dt`, where `ddq`
is `twoLinkDdq` evaluated at the recorded state and torques of step `t`
(first conjunct); and the accelerations obtained from the closed-form
2×2 inverse with `detM = M11*M22 - M12*M21` do solve the linear system
`M(q) · ddq = tau - C - G` whenever `detM ≠ 0` (second conjunct). -/
theorem c7_semi_implicit_euler :
    (∀ (w : Nat → Nat → ℚ) (g0 : GenState) (cF sF : ℚ → ℚ)
        (q1r q2r dq1r dq2r : ℚ × ℚ) (n T : Nat) (dt : ℚ) (sd : Nat)
        (tm m1 m2 l1 l2 gr : ℚ) (i t : Nat), i < n → t + 1 < T →
        entry (generate_two_link_data w g0 cF sF q1r q2r dq1r dq2r n T dt
            sd tm m1 m2 l1 l2 gr).1 i (t + 1) 2 =
          entry (generate_two_link_data w g0 cF sF q1r q2r dq1r dq2r n T
            dt sd tm m1 m2 l1 l2 gr).1 i t 2 +
          (twoLinkDdq cF sF m1 m2 l1 l2 gr
            (entry (generate_two_link_data w g0 cF sF q1r q2r dq1r dq2r n
              T dt sd tm m1 m2 l1 l2 gr).1 i t 4)
            (entry (generate_two_link_data w g0 cF sF q1r q2r dq1r dq2r n
              T dt sd tm m1 m2 l1 l2 gr).1 i t 5)
            (entry (generate_two_link_data w g0 cF sF q1r q2r dq1r dq2r n
              T dt sd tm m1 m2 l1 l2 gr).1 i t 0,
             entry (generate_two_link_data w g0 cF sF q1r q2r dq1r dq2r n
              T dt sd tm m1 m2 l1 l2 gr).1 i t 1,
             entry (generate_two_link_data w g0 cF sF q1r q2r dq1r dq2r n
              T dt sd tm m1 m2 l1 l2 gr).1 i t 2,
             entry (generate_two_link_data w g0 cF sF q1r q2r dq1r dq2r n
              T dt sd tm m1 m2 l1 l2 gr).1 i t 3)).1 * dt ∧
        entry (generate_two_link_data w g0 cF sF q1r q2r dq1r dq2r n T dt
            sd tm m1 m2 l1 l2 gr).1 i (t + 1) 3 =
          entry (generate_two_link_data w g0 cF sF q1r q2r dq1r dq2r n T
            dt sd tm m1 m2 l1 l2 gr).1 i t 3 +
          (twoLinkDdq cF sF m1 m2 l1 l2 gr
            (entry (generate_two_link_data w g0 cF sF q1r q2r dq1r dq2r n
              T dt sd tm m1 m2 l1 l2 gr).1 i t 4)
            (entry (generate_two_link_data w g0 cF sF q1r q2r dq1r dq2r n
              T dt sd tm m1 m2 l1 l2 gr).1 i t 5)
            (entry (generate_two_link_data w g0 cF sF q1r q2r dq1r dq2r n
              T dt sd tm m1 m2 l1 l2 gr).1 i t 0,
             entry (generate_two_link_data w g0 cF sF q1r q2r dq1r dq2r n
              T dt sd tm m1 m2 l1 l2 gr).1 i t 1,
             entry (generate_two_link_data w g0 cF sF q1r q2r dq1r dq2r n
              T dt sd tm m1 m2 l1 l2 gr).1 i t 2,
             entry (generate_two_link_data w g0 cF sF q1r q2r dq1r dq2r n
              T dt sd tm m1 m2 l1 l2 gr).1 i t 3)).2 * dt ∧
        entry (generate_two_link_data w g0 cF sF q1r q2r dq1r dq2r n T dt
            sd tm m1 m2 l1 l2 gr).1 i (t + 1) 0 =
          entry (generate_two_link_data w g0 cF sF q1r q2r dq1r dq2r n T
            dt sd tm m1 m2 l1 l2 gr).1 i t 0 +
          entry (generate_two_link_data w g0 cF sF q1r q2r dq1r dq2r n T
            dt sd tm m1 m2 l1 l2 gr).1 i (t + 1) 2 * dt ∧
        entry (generate_two_link_data w g0 cF sF q1r q2r dq1r dq2r n T dt
            sd tm m1 m2 l1 l2 gr).1 i (t + 1) 1 =
          entry (generate_two_link_data w g0 cF sF q1r q2r dq1r dq2r n T
            dt sd tm m1 m2 l1 l2 gr).1 i t 1 +
          entry (generate_two_link_data w g0 cF sF q1r q2r dq1r dq2r n T
            dt sd tm m1 m2 l1 l2 gr).1 i (t + 1) 3 * dt) ∧
    (∀ (cF sF : ℚ → ℚ) (m1 m2 l1 l2 gr t1 t2 : ℚ) (s : ℚ × ℚ × ℚ × ℚ),
        (twoLinkM cF m1 m2 l1 l2 s.2.1).1 *
            (twoLinkM cF m1 m2 l1 l2 s.2.1).2.2 -
          (twoLinkM cF m1 m2 l1 l2 s.2.1).2.1 *
            (twoLinkM cF m1 m2 l1 l2 s.2.1).2.1 ≠ 0 →
        (twoLinkM cF m1 m2 l1 l2 s.2.1).1 *
            (twoLinkDdq cF sF m1 m2 l1 l2 gr t1 t2 s).1 +
          (twoLinkM cF m1 m2 l1 l2 s.2.1).2.1 *
            (twoLinkDdq cF sF m1 m2 l1 l2 gr t1 t2 s).2 =
          (twoLinkRhs cF sF m1 m2 l1 l2 gr t1 t2 s).1 ∧
        (twoLinkM cF m1 m2 l1 l2 s.2.1).2.1 *
            (twoLinkDdq cF sF m1 m2 l1 l2 gr t1 t2 s).1 +
          (twoLinkM cF m1 m2 l1 l2 s.2.1).2.2 *
            (twoLinkDdq cF sF m1 m2 l1 l2 gr t1 t2 s).2 =
          (twoLinkRhs cF sF m1 m2 l1 l2 gr t1 t2 s).2) := by
  constructor
  · intro w g0 cF sF q1r q2r dq1r dq2r n T dt sd tm m1 m2 l1 l2 gr i t
      hi ht
    have ht' : t < T := Nat.lt_of_succ_lt ht
    unfold entry
    rw [gtl_row w g0 cF sF q1r q2r dq1r dq2r n T dt sd tm m1 m2 l1 l2 gr
        hi ht,
      gtl_row w g0 cF sF q1r q2r dq1r dq2r n T dt sd tm m1 m2 l1 l2 gr
        hi ht']
    exact ⟨rfl, rfl, rfl, rfl⟩
  · intro cF sF m1 m2 l1 l2 gr t1 t2 s hdet
    exact inv2x2_solves (twoLinkM cF m1 m2 l1 l2 s.2.1).1
      (twoLinkM cF m1 m2 l1 l2 s.2.1).2.1
      (twoLinkM cF m1 m2 l1 l2 s.2.1).2.2
      (twoLinkRhs cF sF m1 m2 l1 l2 gr t1 t2 s).1
      (twoLinkRhs cF sF m1 m2 l1 l2 gr t1 t2 s).2 hdet

theorem c7_semi_implicit_euler_witness :
    ((0 : Nat) < 1 ∧ (0 : Nat) + 1 < 2) ∧
    entry (generate_two_link_data (fun _ _ => (1 : ℚ)/2) ⟨0, 0⟩
        (fun _ => 1) (fun _ => 0) (0, 1) (0, 1) (0, 1) (0, 1) 1 2 (1/10)
        0 1 1 1 1 1 (981/100)).1 0 (0 + 1) 2 =
      entry (generate_two_link_data (fun _ _ => (1 : ℚ)/2) ⟨0, 0⟩
        (fun _ => 1) (fun _ => 0) (0, 1) (0, 1) (0, 1) (0, 1) 1 2 (1/10)
        0 1 1 1 1 1 (981/100)).1 0 0 2 +
      (twoLinkDdq (fun _ => 1) (fun _ => 0) 1 1 1 1 (981/100)
        (entry (generate_two_link_data (fun _ _ => (1 : ℚ)/2) ⟨0, 0⟩
          (fun _ => 1) (fun _ => 0) (0, 1) (0, 1) (0, 1) (0, 1) 1 2
          (1/10) 0 1 1 1 1 1 (981/100)).1 0 0 4)
        (entry (generate_two_link_data (fun _ _ => (1 : ℚ)/2) ⟨0, 0⟩
          (fun _ => 1) (fun _ => 0) (0, 1) (0, 1) (0, 1) (0, 1) 1 2
          (1/10) 0 1 1 1 1 1 (981/100)).1 0 0 5)
        (entry (generate_two_link_data (fun _ _ => (1 : ℚ)/2) ⟨0, 0⟩
          (fun _ => 1) (fun _ => 0) (0, 1) (0, 1) (0, 1) (0, 1) 1 2
          (1/10) 0 1 1 1 1 1 (981/100)).1 0 0 0,
         entry (generate_two_link_data (fun _ _ => (1 : ℚ)/2) ⟨0, 0⟩
          (fun _ => 1) (fun _ => 0) (0, 1) (0, 1) (0, 1) (0, 1) 1 2
          (1/10) 0 1 1 1 1 1 (981/100)).1 0 0 1,
         entry (generate_two_link_data (fun _ _ => (1 : ℚ)/2) ⟨0, 0⟩
          (fun _ => 1) (fun _ => 0) (0, 1) (0, 1) (0, 1) (0, 1) 1 2
          (1/10) 0 1 1 1 1 1 (981/100)).1 0 0 2,
         entry (generate_two_link_data (fun _ _ => (1 : ℚ)/2) ⟨0, 0⟩
          (fun _ => 1) (fun _ => 0) (0, 1) (0, 1) (0, 1) (0, 1) 1 2
          (1/10) 0 1 1 1 1 1 (981/100)).1 0 0 3)).1 * (1/10) ∧
    (twoLinkM (fun _ => 1) 1 1 1 1
          (((1 : ℚ)/2, (1 : ℚ)/2, (1 : ℚ)/2, (1 : ℚ)/2) :
            ℚ × ℚ × ℚ × ℚ).2.1).1 *
        (twoLinkDdq (fun _ => 1) (fun _ => 0) 1 1 1 1 (981/100) 0 0
          ((1 : ℚ)/2, (1 : ℚ)/2, (1 : ℚ)/2, (1 : ℚ)/2)).1 +
      (twoLinkM (fun _ => 1) 1 1 1 1
          (((1 : ℚ)/2, (1 : ℚ)/2, (1 : ℚ)/2, (1 : ℚ)/2) :
            ℚ × ℚ × ℚ × ℚ).2.1).2.1 *
        (twoLinkDdq (fun _ => 1) (fun _ => 0) 1 1 1 1 (981/100) 0 0
          ((1 : ℚ)/2, (1 : ℚ)/2, (1 : ℚ)/2, (1 : ℚ)/2)).2 =
      (twoLinkRhs (fun _ => 1) (fun _ => 0) 1 1 1 1 (981/100) 0 0
        ((1 : ℚ)/2, (1 : ℚ)/2, (1 : ℚ)/2, (1 : ℚ)/2)).1 :=
  ⟨⟨by decide, by decide⟩,
   (c7_semi_implicit_euler.1 (fun _ _ => (1 : ℚ)/2) ⟨0, 0⟩ (fun _ => 1)
     (fun _ => 0) (0, 1) (0, 1) (0, 1) (0, 1) 1 2 (1/10) 0 1 1 1 1 1
     (981/100) 0 0 (by decide) (by decide)).1,
   ((c7_semi_implicit_euler.2 (fun _ => 1) (fun _ => 0) 1 1 1 1 (981/100)
     0 0 ((1 : ℚ)/2, (1 : ℚ)/2, (1 : ℚ)/2, (1 : ℚ)/2)
     (by norm_num [twoLinkM]))).1⟩

/-- **C3 (counterexample).** The claim says no simulator call writes any
output to any channel other than its return value; but
`generate_two_link_data` executes
`print(f"Computed Inertia: I1 = ..., I2 = ...")` before integrating, so
its stdout channel is non-empty even for a degenerate call with
`numICs = 0`, `T = 0`. -/
theorem c3_side_effects_counterexample :
    (generate_two_link_data (fun _ _ => (1 : ℚ)/2) ⟨0, 0⟩ (fun _ => 1)
      (fun _ => 0) (0, 1) (0, 1) (0, 1) (0, 1) 0 0 (1/10) 0 1 1 1 1 1
      (981/100)).2.2 ≠ [] := by
  simp [generate_two_link_data]

/-- **C3 (amended).** Every simulator call is side-effect-free apart
from the global generator state, which it fully resets at the start via
explicit seeding (so its whole result is independent of the incoming
generator state), and `generate_data` / `generate_data_unforced` write
nothing to stdout — but `generate_two_link_data` additionally prints one
diagnostic line carrying the computed inertias
`(I1, I2) = (m1*(l1/2)^2, m2*(l2/2)^2)`. -/
theorem c3_side_effects_amended (stream : Nat → Nat → ℚ)
    (g g' : GenState) (x1range x2range q1r q2r dq1r dq2r : ℚ × ℚ)
    (numICs : Nat) (mu lam : ℚ) (T : Nat) (dt : ℚ) (seed : Nat)
    (cosF sinF : ℚ → ℚ) (tau_max m1 m2 l1 l2 grav : ℚ) :
    (generate_data stream g x1range x2range numICs mu lam T dt
      seed).2.2 = [] ∧
    (generate_data_unforced stream g x1range x2range numICs mu lam T dt
      seed).2.2 = [] ∧
    (generate_two_link_data stream g cosF sinF q1r q2r dq1r dq2r numICs T
      dt seed tau_max m1 m2 l1 l2 grav).2.2 =
      [(m1 * (l1 / 2) ^ 2, m2 * (l2 / 2) ^ 2)] ∧
    generate_data stream g x1range x2range numICs mu lam T dt seed =
      generate_data stream g' x1range x2range numICs mu lam T dt seed ∧
    generate_data_unforced stream g x1range x2range numICs mu lam T dt
        seed =
      generate_data_unforced stream g' x1range x2range numICs mu lam T dt
        seed ∧
    generate_two_link_data stream g cosF sinF q1r q2r dq1r dq2r numICs T
        dt seed tau_max m1 m2 l1 l2 grav =
      generate_two_link_data stream g' cosF sinF q1r q2r dq1r dq2r numICs
        T dt seed tau_max m1 m2 l1 l2 grav :=
  ⟨rfl, rfl, rfl, rfl, rfl, rfl⟩

/-- **C1 (counterexample).** The claim asserts that
`generate_data((0,0), (0,0), 1, 0, 0, 5, 0.1, 0)` returns a buffer whose
`x1` and `x2` columns are zero at every one of the 5 steps.  This cannot
hold for uniform `[0,1)` draws unless the wrapped control draw is
exactly `1/2`: with `mu = 0` the source still adds `dt*u[:, t-1]` to
`x1` each step, so for the stream constantly `3/4` (control `u = 1/4`)
the recorded `x1` at step 1 is `1/40 ≠ 0`. -/
theorem c1_scenario_counterexample :
    ¬ (∀ w : Nat → Nat → ℚ, (∀ s k, 0 ≤ w s k ∧ w s k < 1) →
        ∀ t, t < 5 →
          entry (generate_data w ⟨0, 0⟩ (0, 0) (0, 0) 1 0 0 5 (1/10)
            0).1 0 t 0 = 0 ∧
          entry (generate_data w ⟨0, 0⟩ (0, 0) (0, 0) 1 0 0 5 (1/10)
            0).1 0 t 1 = 0) := by
  intro hcl
  have h := (hcl (fun _ _ => 3/4) (fun _ _ => ⟨by norm_num, by norm_num⟩)
    1 (by norm_num)).1
  have hne : entry (generate_data (fun _ _ => (3 : ℚ)/4) ⟨0, 0⟩ (0, 0)
      (0, 0) 1 0 0 5 (1/10) 0).1 0 1 0 ≠ 0 := by
    have hrow := gd_row (fun _ _ => (3 : ℚ)/4) ⟨0, 0⟩ (0, 0) (0, 0) 1 0 0
      5 (1/10) 0 (i := 0) (t := 1) (by norm_num) (by norm_num)
    unfold entry
    rw [hrow]
    simp only [gd_state, scalarIter, scalarStep, gd_x1_0, gd_x2_0, gd_u,
      drawAt, manual_seed, advance, pyPrevIdx]
    norm_num
  exact hne h

/-- **C1 (amended).** For any generator stream `w`:
`generate_data((0,0), (0,0), 1, 0, 0, 5, 0.1, 0)` returns a `[1,5,3]`
buffer; its `x2` column is zero at every step (`lam = 0` and initial
range `(0,0)`); its `x1` column is zero at step 0 and then follows
`x1(t+1) = x1(t) + dt*(draw - 1/2)` with the wrapped previous-step
control draw (`mu = 0` kills the drift term but the control forcing
remains); and its control column equals the seed-0 uniform draws shifted
by `-0.5` (draws 2,3,4,5,6 of the stream, after the two initial-state
draws). -/
theorem c1_scenario_amended (w : Nat → Nat → ℚ) (g0 : GenState) :
    (generate_data w g0 (0, 0) (0, 0) 1 0 0 5 (1/10) 0).1.length = 1 ∧
    (∀ row ∈ (generate_data w g0 (0, 0) (0, 0) 1 0 0 5 (1/10) 0).1,
      row.length = 5 ∧ ∀ cell ∈ row, cell.length = 3) ∧
    entry (generate_data w g0 (0, 0) (0, 0) 1 0 0 5 (1/10) 0).1 0 0 0 =
      0 ∧
    (∀ t, t < 5 →
      entry (generate_data w g0 (0, 0) (0, 0) 1 0 0 5 (1/10) 0).1 0 t 1 =
        0) ∧
    (∀ t, t + 1 < 5 →
      entry (generate_data w g0 (0, 0) (0, 0) 1 0 0 5 (1/10) 0).1 0
          (t + 1) 0 =
        entry (generate_data w g0 (0, 0) (0, 0) 1 0 0 5 (1/10) 0).1 0 t 0
          + (1/10) * (w 0 (2 + pyPrevIdx t 5) - 1/2)) ∧
    (∀ t, t < 5 →
      entry (generate_data w g0 (0, 0) (0, 0) 1 0 0 5 (1/10) 0).1 0 t 2 =
        w 0 (2 + t) - 1/2) := by
  obtain ⟨hlen, hshape⟩ := generate_data_shape w g0 (0, 0) (0, 0) 1 0 0 5
    (1/10) 0
  have hx2 : ∀ t, (gd_state w (0, 0) (0, 0) 1 0 0 5 (1/10) 0 0 t).2 = 0 := by
    intro t
    induction t with
    | zero => simp [gd_state, scalarIter, gd_x2_0]
    | succ t ih =>
      simp only [gd_state, scalarIter, scalarStep] at ih ⊢
      rw [ih]
      norm_num
  refine ⟨hlen, hshape, ?_, ?_, ?_, ?_⟩
  · unfold entry
    rw [gd_row w g0 (0, 0) (0, 0) 1 0 0 5 (1/10) 0 (by norm_num)
      (by norm_num)]
    show (gd_state w (0, 0) (0, 0) 1 0 0 5 (1/10) 0 0 0).1 = 0
    simp [gd_state, scalarIter, gd_x1_0]
  · intro t ht
    unfold entry
    rw [gd_row w g0 (0, 0) (0, 0) 1 0 0 5 (1/10) 0 (by norm_num) ht]
    exact hx2 t
  · intro t ht
    have ht' : t < 5 := Nat.lt_of_succ_lt ht
    unfold entry
    rw [gd_row w g0 (0, 0) (0, 0) 1 0 0 5 (1/10) 0 (by norm_num) ht,
      gd_row w g0 (0, 0) (0, 0) 1 0 0 5 (1/10) 0 (by norm_num) ht']
    show (gd_state w (0, 0) (0, 0) 1 0 0 5 (1/10) 0 0 (t + 1)).1 =
      (gd_state w (0, 0) (0, 0) 1 0 0 5 (1/10) 0 0 t).1 +
        (1/10) * (w 0 (2 + pyPrevIdx t 5) - 1/2)
    simp only [gd_state, scalarIter, scalarStep, gd_u, drawAt, advance,
      manual_seed]
    norm_num
  · intro t ht
    unfold entry
    rw [gd_row w g0 (0, 0) (0, 0) 1 0 0 5 (1/10) 0 (by norm_num) ht]
    show gd_u w 1 5 0 0 t = w 0 (2 + t) - 1/2
    simp only [gd_u, drawAt, advance, manual_seed]
    norm_num

theorem c1_scenario_amended_witness :
    (1 : Nat) < 5 ∧ (0 : Nat) + 1 < 5 ∧ (0 : Nat) < 5 ∧
    (generate_data (fun _ _ => (3 : ℚ)/4) ⟨0, 0⟩ (0, 0) (0, 0) 1 0 0 5
      (1/10) 0).1.length = 1 ∧
    entry (generate_data (fun _ _ => (3 : ℚ)/4) ⟨0, 0⟩ (0, 0) (0, 0) 1 0
      0 5 (1/10) 0).1 0 0 0 = 0 ∧
    entry (generate_data (fun _ _ => (3 : ℚ)/4) ⟨0, 0⟩ (0, 0) (0, 0) 1 0
      0 5 (1/10) 0).1 0 1 1 = 0 ∧
    entry (generate_data (fun _ _ => (3 : ℚ)/4) ⟨0, 0⟩ (0, 0) (0, 0) 1 0
        0 5 (1/10) 0).1 0 (0 + 1) 0 =
      entry (generate_data (fun _ _ => (3 : ℚ)/4) ⟨0, 0⟩ (0, 0) (0, 0) 1
        0 0 5 (1/10) 0).1 0 0 0 + (1/10) * ((3 : ℚ)/4 - 1/2) ∧
    entry (generate_data (fun _ _ => (3 : ℚ)/4) ⟨0, 0⟩ (0, 0) (0, 0) 1 0
      0 5 (1/10) 0).1 0 0 2 = (3 : ℚ)/4 - 1/2 :=
  ⟨by decide, by decide, by decide,
   (c1_scenario_amended (fun _ _ => (3 : ℚ)/4) ⟨0, 0⟩).1,
   (c1_scenario_amended (fun _ _ => (3 : ℚ)/4) ⟨0, 0⟩).2.2.1,
   (c1_scenario_amended (fun _ _ => (3 : ℚ)/4) ⟨0, 0⟩).2.2.2.1 1
     (by decide),
   (c1_scenario_amended (fun _ _ => (3 : ℚ)/4) ⟨0, 0⟩).2.2.2.2.1 0
     (by decide),
   (c1_scenario_amended (fun _ _ => (3 : ℚ)/4) ⟨0, 0⟩).2.2.2.2.2 0
     (by decide)⟩
